import Mathlib

/-!
Shallow embedding of the `conductor` Go package (`conductor.go`): a
process-local service-lifecycle coordinator.  Channels of capacity one are
modelled as a buffer list plus a lifetime write counter; the completion
channel (`c.shutdown`) is modelled by its closed flag, and `close` of an
already-closed channel is modelled as a Go runtime panic.  External
`Service` implementations are abstracted by three behaviour flags; timing
races (`time.After` vs a signal) are abstracted by the boolean outcome of
the race.  `Start` and `Stop` are translated line by line from the source
into deterministic functions returning the new state, an event trace and
an outcome (returned normally, blocked forever on a send, blocked forever
waiting for stopped-signals, or panicked).
-/

namespace Conductor

/-- Go durations in nanoseconds (`time.Duration` counts nanoseconds). -/
abbrev Duration := Nat

/-- One second, in nanoseconds (`time.Second`). -/
def second : Duration := 1000000000

/-- Source constant `startupTimeout = 5 * time.Second`. -/
def startupTimeout : Duration := 5 * second

/-- Source constant `shutdownTimeout = 5 * time.Second`. -/
def shutdownTimeout : Duration := 5 * second

/-- A buffered Go channel of capacity one, as created by `make(chan T, 1)`:
`buf` holds the queued values (a send blocks when it already holds one),
`writes` counts every successful send over the channel's lifetime. -/
structure Chan1 (α : Type) where
  buf : List α
  writes : Nat
deriving DecidableEq, Repr

/-- A fresh capacity-one channel, as built at registration time. -/
def Chan1.fresh {α : Type} : Chan1 α := ⟨[], 0⟩

/-- The completion channel `c.shutdown` (`make(chan bool)`), used only via
`close` and receives; we track whether it has been closed. -/
structure DoneChan where
  closed : Bool
deriving DecidableEq, Repr

/-- The deadline-bearing cancellation context built by
`context.WithTimeout(context.Background(), c.stopTimeout)`. -/
structure Ctx where
  deadline : Nat
deriving DecidableEq, Repr

/-- Abstraction of an external `Service` implementation (the interface's
single method `Run(ready, stopped, shutdown chan ...) error`).  The three
flags record the service's behaviour: `runError` — `Run` returns a non-nil
error (and the service writes nothing); `readyInTime` — after a nil `Run`,
the service writes its readySignal before the `startTimeout` timer fires;
`stopsOnRequest` — once its `Run` has been invoked, the service listens on
its shutdown channel and, on receiving the token, consumes it, cleans up
and writes its stoppedSignal (at most once over its lifetime). -/
structure ServiceImpl where
  runError : Bool
  readyInTime : Bool
  stopsOnRequest : Bool
deriving DecidableEq, Repr

/-- Go struct `serviceState`: name, service, and the three capacity-one
channels made at registration.  `runCount` instruments how many times the
conductor has invoked this service's `Run`; `hasStopped` records whether
the service has already emitted its one stoppedSignal. -/
structure serviceState where
  name : String
  service : ServiceImpl
  ready : Chan1 Unit
  stopped : Chan1 Unit
  shutdown : Chan1 Ctx
  runCount : Nat
  hasStopped : Bool
deriving DecidableEq, Repr

/-- Go struct `conductor`. -/
structure conductor where
  started : Bool
  noisy : Bool
  startTimeout : Duration
  stopTimeout : Duration
  shutdown : DoneChan
  services : List serviceState
deriving DecidableEq, Repr

/-- Go function `New`: the defaults, then each option function applied in
order. -/
def New (opts : List (conductor → conductor)) : conductor :=
  opts.foldl (fun c optFn => optFn c)
    { started := false
      noisy := false
      startTimeout := startupTimeout
      stopTimeout := shutdownTimeout
      shutdown := { closed := false }
      services := [] }

/-- Option function `StartupTimeout`. -/
def StartupTimeout (d : Duration) : conductor → conductor :=
  fun c => { c with startTimeout := d }

/-- Option function `ShutdownTimeout`. -/
def ShutdownTimeout (d : Duration) : conductor → conductor :=
  fun c => { c with stopTimeout := d }

/-- Option function `Noisy`. -/
def Noisy : conductor → conductor :=
  fun c => { c with noisy := true }

/-- A brand-new `serviceState` as appended by `conductor.Service`: the
given name and service with three fresh capacity-one channels. -/
def freshState (name : String) (service : ServiceImpl) : serviceState :=
  { name := name
    service := service
    ready := Chan1.fresh
    stopped := Chan1.fresh
    shutdown := Chan1.fresh
    runCount := 0
    hasStopped := false }

/-- Go method `conductor.Service`: panics when called after `Start`,
otherwise appends a fresh record; the Go `panic` is modelled by `.error`. -/
def conductor.Service (c : conductor) (name : String) (service : ServiceImpl) :
    Except String conductor :=
  if c.started then
    .error "Cannot call Conductor.Service after Conductor.Start"
  else
    .ok { c with services := c.services ++ [freshState name service] }

/-- Events observed while running the conductor, indexed by the service's
position in the registration order. -/
inductive Event where
  | runCall (i : Nat)
  | runErr (i : Nat)
  | ready (i : Nat)
  | timeout (i : Nat)
  | deliver (i : Nat) (ctx : Ctx)
  | stopped (i : Nat)
  | closeCompletion
deriving DecidableEq, Repr

/-- How a call to `Stop` ends: it returns (`ok`), it blocks forever sending
the token to service `i`'s full shutdown channel (`blockedSend`), it blocks
forever waiting for the stopped-signal countdown (`blockedWait`), or it
panics closing the already-closed completion channel (`panicked`). -/
inductive StopOutcome where
  | ok
  | blockedSend (i : Nat)
  | blockedWait
  | panicked (msg : String)
deriving DecidableEq, Repr

/-- Whether, in `Stop`'s delivery loop, this service consumes the freshly
delivered token and emits its stoppedSignal: its `Run` must have been
invoked, it must be a `stopsOnRequest` service, and it must not have
already used up its one stoppedSignal. -/
def respondsB (s : serviceState) : Bool :=
  s.runCount != 0 && s.service.stopsOnRequest && !s.hasStopped

/-- One iteration of `Stop`'s delivery loop for one service: the send
`state.shutdown <- ctx` blocks forever (`none`) when the capacity-one
buffer is full; otherwise the token is buffered and, when the service
responds, it consumes the token and writes its stoppedSignal, which the
waiter goroutine `<-state.stopped; wg.Done()` then consumes. -/
def deliverOne (ctx : Ctx) (s : serviceState) : Option (serviceState × Bool) :=
  if s.shutdown.buf.length ≥ 1 then
    none
  else
    let s1 := { s with shutdown := ⟨s.shutdown.buf ++ [ctx], s.shutdown.writes + 1⟩ }
    if respondsB s1 then
      some ({ s1 with
                shutdown := ⟨[], s1.shutdown.writes⟩
                stopped := ⟨[], s1.stopped.writes + 1⟩
                hasStopped := true }, true)
    else
      some (s1, false)

/-- Stop's delivery loop `for _, state := range c.services`, from service
index `i` on.  Returns the updated services, the trace, the index at which
the send blocked (if any; later services are then never reached), and
whether every service emitted its stoppedSignal during this call (the
waitgroup countdown reaches zero exactly then). -/
def deliverLoop (ctx : Ctx) (i : Nat) :
    List serviceState → List serviceState × List Event × Option Nat × Bool
  | [] => ([], [], none, true)
  | s :: rest =>
    match deliverOne ctx s with
    | none => (s :: rest, [], some i, false)
    | some (s1, responded) =>
      let (rest1, evs, blocked, all) := deliverLoop ctx (i + 1) rest
      (s1 :: rest1,
        Event.deliver i ctx :: ((if responded then [Event.stopped i] else []) ++ evs),
        blocked, responded && all)

/-- Result of a call to `Stop`. -/
structure StopResult where
  services : List serviceState
  completion : DoneChan
  events : List Event
  outcome : StopOutcome
deriving DecidableEq, Repr

/-- Go method `conductor.Stop`, over its inputs: build the shared deadline
token `now + stopTimeout`, deliver it to every registered service, then
block on the waitgroup countdown; when it reaches zero, `close(c.shutdown)`
— which is a Go runtime panic when the channel is already closed. -/
def StopModel (services : List serviceState) (completion : DoneChan)
    (stopTimeout now : Nat) : StopResult :=
  let ctx : Ctx := ⟨now + stopTimeout⟩
  let (svcs, evs, blocked, all) := deliverLoop ctx 0 services
  match blocked with
  | some i => ⟨svcs, completion, evs, .blockedSend i⟩
  | none =>
    if all then
      if completion.closed then
        ⟨svcs, completion, evs, .panicked "close of closed channel"⟩
      else
        ⟨svcs, { closed := true }, evs ++ [Event.closeCompletion], .ok⟩
    else
      ⟨svcs, completion, evs, .blockedWait⟩

/-- Go method `conductor.Stop` on a conductor value. -/
def conductor.Stop (c : conductor) (now : Nat) :
    conductor × List Event × StopOutcome :=
  let r := StopModel c.services c.shutdown c.stopTimeout now
  ({ c with services := r.services, shutdown := r.completion }, r.events, r.outcome)

/-- Result of a call to `Start`: the final conductor, the trace, and the
outcome of the inner `Stop` call when the startup loop triggered one
(`none` when every service came up ready). -/
structure StartResult where
  c : conductor
  events : List Event
  stopOutcome : Option StopOutcome
deriving DecidableEq, Repr

/-- Start's `SRV_LOOP`, carried out over the `todo` suffix of the service
list with the already-processed prefix in `done`.  Each iteration invokes
`Run`; a non-nil error or losing the `time.After(startTimeout)` /
`<-srv.ready` race triggers `Stop` over the whole service list and breaks
the loop; a ready signal in time is consumed and the loop continues. -/
def startLoop (stopT now : Nat) :
    List serviceState → List serviceState → DoneChan →
    List serviceState × DoneChan × List Event × Option StopOutcome
  | done, [], completion => (done, completion, [], none)
  | done, s :: todo, completion =>
    let i := done.length
    let s1 := { s with runCount := s.runCount + 1 }
    if s.service.runError then
      let r := StopModel (done ++ s1 :: todo) completion stopT now
      (r.services, r.completion, Event.runCall i :: Event.runErr i :: r.events,
        some r.outcome)
    else if s.service.readyInTime then
      let s2 := { s1 with ready := ⟨[], s1.ready.writes + 1⟩ }
      let (svcs, c2, evs, o) := startLoop stopT now (done ++ [s2]) todo completion
      (svcs, c2, Event.runCall i :: Event.ready i :: evs, o)
    else
      let r := StopModel (done ++ s1 :: todo) completion stopT now
      (r.services, r.completion, Event.runCall i :: Event.timeout i :: r.events,
        some r.outcome)

/-- Go method `conductor.Start`: set the `started` latch, run the startup
loop, return the completion channel. -/
def conductor.Start (c : conductor) (now : Nat) : StartResult :=
  let (svcs, completion, evs, o) :=
    startLoop c.stopTimeout now [] c.services c.shutdown
  ⟨{ c with started := true, services := svcs, shutdown := completion }, evs, o⟩

/-- Register a list of named services in order, propagating the panic. -/
def registerAll (c : conductor) : List (String × ServiceImpl) → Except String conductor
  | [] => .ok c
  | (n, s) :: rest =>
    match c.Service n s with
    | .error e => .error e
    | .ok c1 => registerAll c1 rest

/-- A conductor with default options holding the given services, freshly
registered and not yet started. -/
def mkConductor (impls : List ServiceImpl) : conductor :=
  { New [] with services := impls.map (freshState "svc") }

/-! Derived descriptions of the two loops, used to state and prove the
claims: `deliverStep` is the effect of one non-blocking delivery-loop
iteration on one service, `deliverEvents` its trace; `runStep`/`readyStep`
are the effect of one startup-loop iteration, `readyTrace` its trace. -/

/-- Effect of one iteration of `Stop`'s delivery loop on one service whose
capacity-one shutdown buffer is empty: the token is buffered, and a
responding service consumes it and spends its one stoppedSignal. -/
def deliverStep (ctx : Ctx) (s : serviceState) : serviceState :=
  if respondsB s then
    { s with
        shutdown := ⟨[], s.shutdown.writes + 1⟩
        stopped := ⟨[], s.stopped.writes + 1⟩
        hasStopped := true }
  else
    { s with shutdown := ⟨[ctx], s.shutdown.writes + 1⟩ }

/-- Trace of `Stop`'s delivery loop over a list of services starting at
index `i`, when no send blocks. -/
def deliverEvents (ctx : Ctx) (i : Nat) : List serviceState → List Event
  | [] => []
  | s :: rest =>
    Event.deliver i ctx ::
      ((if respondsB s then [Event.stopped i] else []) ++ deliverEvents ctx (i + 1) rest)

/-- Effect of invoking a service's `Run` on its record. -/
def runStep (s : serviceState) : serviceState :=
  { s with runCount := s.runCount + 1 }

/-- Effect of one full successful startup-loop iteration on a service: its
`Run` is invoked and its readySignal is written then consumed. -/
def readyStep (s : serviceState) : serviceState :=
  { s with runCount := s.runCount + 1, ready := ⟨[], s.ready.writes + 1⟩ }

/-- Trace of the startup loop over `n` services starting at index `i` when
every one of them starts and signals ready in time. -/
def readyTrace (i : Nat) : Nat → List Event
  | 0 => []
  | n + 1 => Event.runCall i :: Event.ready i :: readyTrace (i + 1) n

/-! Specification predicates for the claims, and concrete scenario data. -/

/-- What a first call to `Stop` does, per the spec: one shared deadline
token `now + stopTimeout` delivered to every registered service, exactly
one write to each shutdownRequest channel, a wait that ends (and closes
completionSignal) exactly when every service has signalled stopped, and no
hard ceiling on that wait (the only other possible outcome is blocking
forever). -/
def StopSpec (c : conductor) (now : Nat) : Prop :=
  ((c.Stop now).1.services.length = c.services.length) ∧
  (∀ j, j < c.services.length → Event.deliver j ⟨now + c.stopTimeout⟩ ∈ (c.Stop now).2.1) ∧
  (((c.Stop now).1.services.map fun s => s.shutdown.writes) =
    (c.services.map fun s => s.shutdown.writes + 1)) ∧
  ((c.Stop now).2.2 = StopOutcome.ok ↔ c.services.all respondsB = true) ∧
  ((c.Stop now).1.shutdown.closed = true ↔ (c.Stop now).2.2 = StopOutcome.ok) ∧
  ((c.Stop now).2.2 = StopOutcome.ok ∨ (c.Stop now).2.2 = StopOutcome.blockedWait)

/-- What `Start` does when every registered service starts cleanly and
signals ready in time: the trace is exactly run/ready in registration
order, every `Run` is invoked exactly once, no stop trigger fires, the
completion channel is untouched, and a separately invoked `Stop` (on
services that honour shutdown requests) closes it. -/
def StartAllReadySpec (impls : List ServiceImpl) (now now2 : Nat) : Prop :=
  (((mkConductor impls).Start now).events = readyTrace 0 impls.length) ∧
  ((((mkConductor impls).Start now).c.services.map fun s => s.runCount) =
    List.replicate impls.length 1) ∧
  (((mkConductor impls).Start now).stopOutcome = none) ∧
  (((mkConductor impls).Start now).c.shutdown.closed = false) ∧
  ((∀ s ∈ impls, s.stopsOnRequest = true) →
    ((((mkConductor impls).Start now).c.Stop now2).2.2 = StopOutcome.ok ∧
     ((((mkConductor impls).Start now).c.Stop now2).1.shutdown.closed = true)))

/-- What `Start` does when service number `pre.length` (0-indexed; the
`k`-th service, 1-indexed) fails its `Run`: the shutdown path is
triggered, the loop is aborted so the remaining services are never run,
and every service — in particular each of the first `k - 1` — receives
exactly one shutdown request. -/
def ErrAbortSpec (pre : List ServiceImpl) (bad : ServiceImpl)
    (rest : List ServiceImpl) (now : Nat) : Prop :=
  (((mkConductor (pre ++ bad :: rest)).Start now).stopOutcome.isSome = true) ∧
  (Event.runErr pre.length ∈ ((mkConductor (pre ++ bad :: rest)).Start now).events) ∧
  ((((mkConductor (pre ++ bad :: rest)).Start now).c.services.map fun s => s.runCount) =
    List.replicate pre.length 1 ++ 1 :: List.replicate rest.length 0) ∧
  ((((mkConductor (pre ++ bad :: rest)).Start now).c.services.map fun s => s.shutdown.writes) =
    List.replicate pre.length 1 ++ 1 :: List.replicate rest.length 1)

/-- Same shape as `ErrAbortSpec`, for the service that loses the
`startTimeout` race instead of failing its `Run`. -/
def TimeoutAbortSpec (pre : List ServiceImpl) (bad : ServiceImpl)
    (rest : List ServiceImpl) (now : Nat) : Prop :=
  (((mkConductor (pre ++ bad :: rest)).Start now).stopOutcome.isSome = true) ∧
  (Event.timeout pre.length ∈ ((mkConductor (pre ++ bad :: rest)).Start now).events) ∧
  ((((mkConductor (pre ++ bad :: rest)).Start now).c.services.map fun s => s.runCount) =
    List.replicate pre.length 1 ++ 1 :: List.replicate rest.length 0) ∧
  ((((mkConductor (pre ++ bad :: rest)).Start now).c.services.map fun s => s.shutdown.writes) =
    List.replicate pre.length 1 ++ 1 :: List.replicate rest.length 1)

/-- What `Start` does when service number `pre.length` wins the readiness
race: its run/ready events are observed and, when a further service is
registered, the loop proceeds and invokes its `Run`. -/
def ProceedSpec (pre : List ServiceImpl) (bad : ServiceImpl)
    (rest : List ServiceImpl) (now : Nat) : Prop :=
  (Event.runCall pre.length ∈ ((mkConductor (pre ++ bad :: rest)).Start now).events) ∧
  (Event.ready pre.length ∈ ((mkConductor (pre ++ bad :: rest)).Start now).events) ∧
  (0 < rest.length →
    Event.runCall (pre.length + 1) ∈ ((mkConductor (pre ++ bad :: rest)).Start now).events)

/-- On a conductor whose shutdownRequest channels have had no prior write,
`Stop`'s delivery loop never blocks: every channel receives exactly one
token immediately, and a never-started service keeps it buffered
unread. -/
def DeliveryNeverBlocksSpec (c : conductor) (now : Nat) : Prop :=
  (∀ i, (c.Stop now).2.2 ≠ StopOutcome.blockedSend i) ∧
  (((c.Stop now).1.services.map fun s => s.shutdown.writes) =
    (c.services.map fun s => s.shutdown.writes + 1)) ∧
  (∀ j, (h : j < c.services.length) → (c.services.get ⟨j, h⟩).runCount = 0 →
    ∀ (h2 : j < (c.Stop now).1.services.length),
      ((c.Stop now).1.services.get ⟨j, h2⟩).shutdown.buf = [⟨now + c.stopTimeout⟩])

/-- A well-behaved service: `Run` succeeds, ready comes in time, shutdown
requests are honoured. -/
def implGood : ServiceImpl := ⟨false, true, true⟩

/-- A service whose `Run` returns a non-nil error but which still honours
a shutdown request once its `Run` was invoked. -/
def implErr : ServiceImpl := ⟨true, true, true⟩

/-- A service whose `Run` succeeds but which never signals ready within
`startTimeout`. -/
def implSlow : ServiceImpl := ⟨false, false, true⟩

/-- A conductor whose `started` latch is already set. -/
def startedConductor : conductor := { New [] with started := true }

/-! Helper lemmas. -/

lemma respondsB_set_shutdown (s : serviceState) (x : Chan1 Ctx) :
    respondsB { s with shutdown := x } = respondsB s := rfl

lemma deliverOne_empty (ctx : Ctx) (s : serviceState) (h : s.shutdown.buf = []) :
    deliverOne ctx s = some (deliverStep ctx s, respondsB s) := by
  cases hr : respondsB s <;>
    simp [deliverOne, deliverStep, h, respondsB_set_shutdown, hr]

lemma deliverLoop_empty (ctx : Ctx) :
    ∀ (l : List serviceState) (i : Nat), (∀ s ∈ l, s.shutdown.buf = []) →
      deliverLoop ctx i l =
        (l.map (deliverStep ctx), deliverEvents ctx i l, none, l.all respondsB)
  | [], i, _ => by simp [deliverLoop, deliverEvents]
  | s :: rest, i, h => by
    have hs : s.shutdown.buf = [] := h s (List.mem_cons_self _ _)
    have hrest : ∀ x ∈ rest, x.shutdown.buf = [] :=
      fun x hx => h x (List.mem_cons_of_mem _ hx)
    simp [deliverLoop, deliverOne_empty ctx s hs, deliverLoop_empty ctx rest (i + 1) hrest,
      deliverEvents]

lemma StopModel_empty (l : List serviceState) (comp : DoneChan) (T now : Nat)
    (h : ∀ s ∈ l, s.shutdown.buf = []) :
    StopModel l comp T now =
      if l.all respondsB then
        if comp.closed then
          ⟨l.map (deliverStep ⟨now + T⟩), comp, deliverEvents ⟨now + T⟩ 0 l,
            .panicked "close of closed channel"⟩
        else
          ⟨l.map (deliverStep ⟨now + T⟩), ⟨true⟩,
            deliverEvents ⟨now + T⟩ 0 l ++ [Event.closeCompletion], .ok⟩
      else
        ⟨l.map (deliverStep ⟨now + T⟩), comp, deliverEvents ⟨now + T⟩ 0 l, .blockedWait⟩ := by
  cases hall : l.all respondsB <;> cases hcl : comp.closed <;>
    simp [StopModel, deliverLoop_empty ⟨now + T⟩ l 0 h, hall, hcl]

lemma StopModel_ok (l : List serviceState) (comp : DoneChan) (T now : Nat)
    (h : ∀ s ∈ l, s.shutdown.buf = []) (hall : l.all respondsB = true)
    (hcl : comp.closed = false) :
    StopModel l comp T now =
      ⟨l.map (deliverStep ⟨now + T⟩), ⟨true⟩,
        deliverEvents ⟨now + T⟩ 0 l ++ [Event.closeCompletion], .ok⟩ := by
  rw [StopModel_empty l comp T now h, hall, hcl]; simp

lemma StopModel_blockedWait (l : List serviceState) (comp : DoneChan) (T now : Nat)
    (h : ∀ s ∈ l, s.shutdown.buf = []) (hall : l.all respondsB = false) :
    StopModel l comp T now =
      ⟨l.map (deliverStep ⟨now + T⟩), comp, deliverEvents ⟨now + T⟩ 0 l,
        .blockedWait⟩ := by
  rw [StopModel_empty l comp T now h, hall]; simp

lemma StopModel_panic (l : List serviceState) (comp : DoneChan) (T now : Nat)
    (h : ∀ s ∈ l, s.shutdown.buf = []) (hall : l.all respondsB = true)
    (hcl : comp.closed = true) :
    StopModel l comp T now =
      ⟨l.map (deliverStep ⟨now + T⟩), comp, deliverEvents ⟨now + T⟩ 0 l,
        .panicked "close of closed channel"⟩ := by
  rw [StopModel_empty l comp T now h, hall, hcl]; simp

lemma deliverStep_shutdown_writes (ctx : Ctx) (s : serviceState) :
    (deliverStep ctx s).shutdown.writes = s.shutdown.writes + 1 := by
  unfold deliverStep; split <;> rfl

lemma deliverStep_runCount (ctx : Ctx) (s : serviceState) :
    (deliverStep ctx s).runCount = s.runCount := by
  unfold deliverStep; split <;> rfl

lemma deliverStep_buf_of_not_responds (ctx : Ctx) (s : serviceState)
    (h : respondsB s = false) : (deliverStep ctx s).shutdown.buf = [ctx] := by
  simp [deliverStep, h]

lemma map_shutdown_writes_deliverStep (ctx : Ctx) (l : List serviceState) :
    ((l.map (deliverStep ctx)).map fun s => s.shutdown.writes) =
      l.map fun s => s.shutdown.writes + 1 := by
  simp [List.map_map, Function.comp, deliverStep_shutdown_writes]

lemma map_runCount_deliverStep (ctx : Ctx) (l : List serviceState) :
    ((l.map (deliverStep ctx)).map fun s => s.runCount) = l.map fun s => s.runCount := by
  simp [List.map_map, Function.comp, deliverStep_runCount]

lemma StopModel_services (l : List serviceState) (comp : DoneChan) (T now : Nat)
    (h : ∀ s ∈ l, s.shutdown.buf = []) :
    (StopModel l comp T now).services = l.map (deliverStep ⟨now + T⟩) := by
  rw [StopModel_empty l comp T now h]
  split_ifs <;> rfl

lemma runCall_mem_readyTrace :
    ∀ (n i j : Nat), i ≤ j → j < i + n → Event.runCall j ∈ readyTrace i n
  | 0, i, j, h1, h2 => absurd h2 (by omega)
  | n + 1, i, j, h1, h2 => by
    rcases Nat.eq_or_lt_of_le h1 with rfl | hlt
    · simp [readyTrace]
    · simp only [readyTrace, List.mem_cons]
      right; right
      exact runCall_mem_readyTrace n (i + 1) j hlt (by omega)

lemma ready_mem_readyTrace :
    ∀ (n i j : Nat), i ≤ j → j < i + n → Event.ready j ∈ readyTrace i n
  | 0, i, j, h1, h2 => absurd h2 (by omega)
  | n + 1, i, j, h1, h2 => by
    rcases Nat.eq_or_lt_of_le h1 with rfl | hlt
    · simp [readyTrace]
    · simp only [readyTrace, List.mem_cons]
      right; right
      exact ready_mem_readyTrace n (i + 1) j hlt (by omega)

lemma deliver_mem_deliverEvents (ctx : Ctx) :
    ∀ (l : List serviceState) (i j : Nat), j < l.length →
      Event.deliver (i + j) ctx ∈ deliverEvents ctx i l
  | [], _, j, h => by simp at h
  | s :: rest, i, 0, _ => by simp [deliverEvents]
  | s :: rest, i, j + 1, h => by
    have := deliver_mem_deliverEvents ctx rest (i + 1) j (by simpa using h)
    simp only [deliverEvents, List.mem_cons, List.mem_append]
    right; right
    simpa [Nat.add_assoc, Nat.add_comm 1 j] using this

lemma startLoop_goodPre (T now : Nat) :
    ∀ (pre : List serviceState),
      (∀ s ∈ pre, s.service.runError = false ∧ s.service.readyInTime = true) →
      ∀ (done rest : List serviceState) (comp : DoneChan),
      startLoop T now done (pre ++ rest) comp =
        ((startLoop T now (done ++ pre.map readyStep) rest comp).1,
         (startLoop T now (done ++ pre.map readyStep) rest comp).2.1,
         readyTrace done.length pre.length ++
           (startLoop T now (done ++ pre.map readyStep) rest comp).2.2.1,
         (startLoop T now (done ++ pre.map readyStep) rest comp).2.2.2)
  | [], _, done, rest, comp => by simp [readyTrace]
  | s :: pre, h, done, rest, comp => by
    obtain ⟨he, hr⟩ := h s (List.mem_cons_self _ _)
    have h' : ∀ x ∈ pre, x.service.runError = false ∧ x.service.readyInTime = true :=
      fun x hx => h x (List.mem_cons_of_mem _ hx)
    have step : { s with runCount := s.runCount + 1, ready := ⟨[], s.ready.writes + 1⟩ } =
        readyStep s := rfl
    simp only [List.cons_append, startLoop, he, hr, Bool.false_eq_true, if_false, if_true,
      step, readyTrace, List.append_eq]
    rw [startLoop_goodPre T now pre h' (done ++ [readyStep s]) rest comp]
    simp [List.append_assoc, readyTrace, Nat.add_comm]

lemma startLoop_good (T now : Nat) (l : List serviceState) (comp : DoneChan)
    (h : ∀ s ∈ l, s.service.runError = false ∧ s.service.readyInTime = true) :
    startLoop T now [] l comp = (l.map readyStep, comp, readyTrace 0 l.length, none) := by
  have := startLoop_goodPre T now l h [] [] comp
  simpa [startLoop] using this

lemma startLoop_err_head (T now : Nat) (done todo : List serviceState)
    (comp : DoneChan) (s : serviceState) (h : s.service.runError = true) :
    startLoop T now done (s :: todo) comp =
      ((StopModel (done ++ runStep s :: todo) comp T now).services,
       (StopModel (done ++ runStep s :: todo) comp T now).completion,
       Event.runCall done.length :: Event.runErr done.length ::
         (StopModel (done ++ runStep s :: todo) comp T now).events,
       some (StopModel (done ++ runStep s :: todo) comp T now).outcome) := by
  simp [startLoop, h, runStep]

lemma startLoop_timeout_head (T now : Nat) (done todo : List serviceState)
    (comp : DoneChan) (s : serviceState) (he : s.service.runError = false)
    (hr : s.service.readyInTime = false) :
    startLoop T now done (s :: todo) comp =
      ((StopModel (done ++ runStep s :: todo) comp T now).services,
       (StopModel (done ++ runStep s :: todo) comp T now).completion,
       Event.runCall done.length :: Event.timeout done.length ::
         (StopModel (done ++ runStep s :: todo) comp T now).events,
       some (StopModel (done ++ runStep s :: todo) comp T now).outcome) := by
  simp [startLoop, he, hr, runStep]

lemma startLoop_head_runCall (T now : Nat) (done todo : List serviceState)
    (comp : DoneChan) (s : serviceState) :
    Event.runCall done.length ∈ (startLoop T now done (s :: todo) comp).2.2.1 := by
  simp only [startLoop]
  split_ifs <;> simp

lemma list_get_congr {α : Type} (l l' : List α) (h : l = l') (j : Nat)
    (hj : j < l.length) (hj' : j < l'.length) :
    l.get ⟨j, hj⟩ = l'.get ⟨j, hj'⟩ := by
  subst h; rfl

lemma respondsB_of_runCount_zero (s : serviceState) (h : s.runCount = 0) :
    respondsB s = false := by
  simp [respondsB, h]

lemma respondsB_readyStep_fresh (n : String) (x : ServiceImpl) :
    respondsB (readyStep (freshState n x)) = x.stopsOnRequest := by
  simp [respondsB, readyStep, freshState]

/-! Theorems settling the claims. -/

/-- Claim C1 (evidence for the code bug): the code does not make `Stop`
idempotent.  A first call to `Stop` on a conductor with no services
returns after closing the completion channel, and a second call reaches
`close(c.shutdown)` on the already-closed channel and panics; with one
well-behaved started service, a second `Stop` instead blocks forever
waiting for a second stoppedSignal that never comes.  This contradicts the
claim that repeated calls close completionSignal exactly once and that
every call to `Stop` returns without panicking or deadlocking. -/
theorem stop_not_idempotent :
    (((New []).Stop 0).2.2 = StopOutcome.ok ∧
      ((New []).Stop 0).1.shutdown.closed = true) ∧
    ((((New []).Stop 0).1.Stop 0).2.2 = StopOutcome.panicked "close of closed channel") ∧
    ((((((mkConductor [implGood]).Start 0).c.Stop 0).1).Stop 0).2.2 =
      StopOutcome.blockedWait) := by
  decide

/-- Claim C2 (counterexample): register two services, service 1 signals
ready, service 2's `Run` returns an error.  The claim says service 2's
shutdownRequest channel is never written to; in fact `Stop` loops over
every registered service, so service 2's shutdownRequest receives the
deadline token as well — both channels end with exactly one write. -/
theorem startup_error_scenario_cex :
    ((((mkConductor [implGood, implErr]).Start 0).c.services.map
        fun s => s.shutdown.writes) = [1, 1]) ∧
    Event.deliver 1 ⟨5000000000⟩ ∈ ((mkConductor [implGood, implErr]).Start 0).events := by
  decide

/-- Claim C2 (amended): in the two-service scenario where service 1
signals ready and service 2's `Run` returns an error, service 1 receives
a shutdown request, service 2's shutdownRequest channel ALSO receives the
same deadline token (exactly one write each, since `Stop` delivers to
every registered service regardless of startup state), service 2's `Run`
was invoked exactly once, and — provided both services then signal
stopped — the completionSignal is closed. -/
theorem startup_error_scenario_amended :
    ((((mkConductor [implGood, implErr]).Start 0).c.services.map
        fun s => s.shutdown.writes) = [1, 1]) ∧
    Event.deliver 0 ⟨5000000000⟩ ∈ ((mkConductor [implGood, implErr]).Start 0).events ∧
    Event.deliver 1 ⟨5000000000⟩ ∈ ((mkConductor [implGood, implErr]).Start 0).events ∧
    Event.runErr 1 ∈ ((mkConductor [implGood, implErr]).Start 0).events ∧
    ((((mkConductor [implGood, implErr]).Start 0).c.services.map
        fun s => s.runCount) = [1, 1]) ∧
    (((mkConductor [implGood, implErr]).Start 0).c.shutdown.closed = true) ∧
    (((mkConductor [implGood, implErr]).Start 0).stopOutcome = some StopOutcome.ok) := by
  decide

/-- Claim C8: a conductor built by `New` with no options has a 5-second
startTimeout, a 5-second stopTimeout and logging off; `StartupTimeout`,
`ShutdownTimeout` and `Noisy` each override exactly their own field. -/
theorem new_defaults_and_options (d1 d2 : Duration) :
    (New []).startTimeout = 5 * second ∧ (New []).stopTimeout = 5 * second ∧
    (New []).noisy = false ∧ (New []).started = false ∧ (New []).services = [] ∧
    (New []).shutdown.closed = false ∧
    (New [StartupTimeout d1]).startTimeout = d1 ∧
    (New [StartupTimeout d1]).stopTimeout = 5 * second ∧
    (New [StartupTimeout d1]).noisy = false ∧
    (New [ShutdownTimeout d2]).stopTimeout = d2 ∧
    (New [ShutdownTimeout d2]).startTimeout = 5 * second ∧
    (New [ShutdownTimeout d2]).noisy = false ∧
    (New [Noisy]).noisy = true ∧
    (New [Noisy]).startTimeout = 5 * second ∧
    (New [Noisy]).stopTimeout = 5 * second ∧
    (New [StartupTimeout d1, ShutdownTimeout d2, Noisy]).startTimeout = d1 ∧
    (New [StartupTimeout d1, ShutdownTimeout d2, Noisy]).stopTimeout = d2 ∧
    (New [StartupTimeout d1, ShutdownTimeout d2, Noisy]).noisy = true :=
  ⟨rfl, rfl, rfl, rfl, rfl, rfl, rfl, rfl, rfl, rfl, rfl, rfl, rfl, rfl, rfl, rfl,
    rfl, rfl⟩

/-- Claim C9: on a conductor with zero registered services, a first call
to `Stop` terminates at once: the countdown starts at zero, so the
all-done event fires immediately, the completion channel is closed and
`Stop` returns without waiting on any service. -/
theorem stop_empty_conductor (now : Nat) :
    ((New []).Stop now).2.2 = StopOutcome.ok ∧
    ((New []).Stop now).1.shutdown.closed = true ∧
    ((New []).Stop now).2.1 = [Event.closeCompletion] ∧
    (New []).services = [] :=
  ⟨rfl, rfl, rfl, rfl⟩

/-- Claim C3: a single (first) call to `Stop` builds one shared deadline
token `now + stopTimeout` and delivers it to every registered service's
shutdownRequest channel (exactly one write each, whether or not the
service was ever started); it returns — closing completionSignal — exactly
when every registered service has signalled stopped, and otherwise blocks
forever: no hard ceiling is enforced on the wait. -/
theorem stop_delivers_waits_closes (c : conductor) (now : Nat)
    (hbuf : ∀ s ∈ c.services, s.shutdown.buf = [])
    (hcl : c.shutdown.closed = false) :
    StopSpec c now := by
  unfold StopSpec conductor.Stop
  cases hall : c.services.all respondsB
  · rw [StopModel_blockedWait c.services c.shutdown c.stopTimeout now hbuf hall]
    refine ⟨by simp, fun j hj => ?_, map_shutdown_writes_deliverStep _ _,
      by simp [hall], by simp [hcl], by simp⟩
    simpa using deliver_mem_deliverEvents ⟨now + c.stopTimeout⟩ c.services 0 j hj
  · rw [StopModel_ok c.services c.shutdown c.stopTimeout now hbuf hall hcl]
    refine ⟨by simp, fun j hj => ?_, map_shutdown_writes_deliverStep _ _,
      by simp [hall], by simp, by simp⟩
    have := deliver_mem_deliverEvents ⟨now + c.stopTimeout⟩ c.services 0 j hj
    simp only [Nat.zero_add] at this
    exact List.mem_append.mpr (Or.inl this)

/-- Claim C10: on the first call to `Stop`, delivering the deadline token
never blocks, independent of service behaviour: every shutdownRequest
channel was created with capacity one and has had no prior write, so
every send in the delivery loop succeeds immediately, and a service that
never reads it simply keeps the token buffered. -/
theorem stop_delivery_never_blocks (c : conductor) (now : Nat)
    (hbuf : ∀ s ∈ c.services, s.shutdown.buf = []) :
    DeliveryNeverBlocksSpec c now := by
  unfold DeliveryNeverBlocksSpec conductor.Stop
  have step : ∀ (comp2 : DoneChan) (evs : List Event) (o : StopOutcome),
      StopModel c.services c.shutdown c.stopTimeout now =
        ⟨c.services.map (deliverStep ⟨now + c.stopTimeout⟩), comp2, evs, o⟩ →
      (∀ i, o ≠ StopOutcome.blockedSend i) →
      (∀ i, (StopModel c.services c.shutdown c.stopTimeout now).outcome ≠
          StopOutcome.blockedSend i) ∧
      (((StopModel c.services c.shutdown c.stopTimeout now).services.map
          fun s => s.shutdown.writes) = c.services.map fun s => s.shutdown.writes + 1) ∧
      (∀ j, (h : j < c.services.length) → (c.services.get ⟨j, h⟩).runCount = 0 →
        ∀ (h2 : j < (StopModel c.services c.shutdown c.stopTimeout now).services.length),
          ((StopModel c.services c.shutdown c.stopTimeout now).services.get
            ⟨j, h2⟩).shutdown.buf = [⟨now + c.stopTimeout⟩]) := by
    intro comp2 evs o heq ho
    refine ⟨by rw [heq]; exact ho, by rw [heq]; exact map_shutdown_writes_deliverStep _ _,
      fun j h h0 h2 => ?_⟩
    have hsvc : (StopModel c.services c.shutdown c.stopTimeout now).services =
        c.services.map (deliverStep ⟨now + c.stopTimeout⟩) := by rw [heq]
    have h2' : j < (c.services.map (deliverStep ⟨now + c.stopTimeout⟩)).length := by
      simpa using h
    rw [list_get_congr _ _ hsvc j h2 h2']
    simp only [List.get_eq_getElem, List.getElem_map]
    exact deliverStep_buf_of_not_responds _ _
      (respondsB_of_runCount_zero _ (by simpa using h0))
  cases hall : c.services.all respondsB
  · exact step c.shutdown _ .blockedWait
      (StopModel_blockedWait c.services c.shutdown c.stopTimeout now hbuf hall)
      (by simp)
  · cases hcl : c.shutdown.closed
    · exact step ⟨true⟩ _ .ok
        (StopModel_ok c.services c.shutdown c.stopTimeout now hbuf hall hcl)
        (by simp)
    · exact step c.shutdown _ (.panicked "close of closed channel")
        (StopModel_panic c.services c.shutdown c.stopTimeout now hbuf hall hcl)
        (by simp)

/-- Claim C7: calling `Service` after `Start` has begun always fails
fatally (the Go `panic`), regardless of how many services are registered;
called before `Start` it never fails, and its only effect is to append one
new record with fresh capacity-one channels — the service itself is not
invoked. -/
theorem service_registration (c : conductor) (name : String) (svc : ServiceImpl) :
    (c.started = true →
      c.Service name svc =
        Except.error "Cannot call Conductor.Service after Conductor.Start") ∧
    (c.started = false →
      c.Service name svc =
        Except.ok { c with services := c.services ++ [freshState name svc] }) ∧
    (freshState name svc).runCount = 0 ∧
    (freshState name svc).ready = Chan1.fresh ∧
    (freshState name svc).stopped = Chan1.fresh ∧
    (freshState name svc).shutdown = Chan1.fresh := by
  refine ⟨fun h => ?_, fun h => ?_, rfl, rfl, rfl, rfl⟩ <;> simp [conductor.Service, h]

/-- Witness for C7 at concrete inputs: registration succeeds and appends
on a fresh conductor, and fails fatally on a started one. -/
theorem service_registration_witness :
    ((New []).Service "a" implGood =
      Except.ok { New [] with services := [freshState "a" implGood] }) ∧
    (startedConductor.Service "a" implGood =
      Except.error "Cannot call Conductor.Service after Conductor.Start") := by
  constructor
  · have h := (service_registration (New []) "a" implGood).2.1 rfl
    simpa using h
  · exact (service_registration startedConductor "a" implGood).1 rfl

/-- Witness for C3: concrete one-service conductor after a clean `Start`;
all hypotheses hold by evaluation. -/
theorem stop_delivers_waits_closes_witness :
    StopSpec (((mkConductor [implGood]).Start 0).c) 0 :=
  stop_delivers_waits_closes (((mkConductor [implGood]).Start 0).c) 0
    (by decide) (by decide)

/-- Witness for C10: concrete two-service registered-but-unstarted
conductor; the freshness hypothesis holds by evaluation. -/
theorem stop_delivery_never_blocks_witness :
    DeliveryNeverBlocksSpec (mkConductor [implGood, implErr]) 0 :=
  stop_delivery_never_blocks (mkConductor [implGood, implErr]) 0 (by decide)

/-- Claim C4: for every list of `N ≥ 0` registered services that each
signal ready immediately, `Start` invokes `Run` on each exactly once,
strictly in registration order (the trace is exactly run/ready pairs in
index order), and `Start` itself does not close the completionSignal —
that happens only when `Stop` is separately invoked. -/
theorem start_all_ready (impls : List ServiceImpl) (now now2 : Nat)
    (h : ∀ s ∈ impls, s.runError = false ∧ s.readyInTime = true) :
    StartAllReadySpec impls now now2 := by
  have hs : ∀ s ∈ impls.map (freshState "svc"),
      s.service.runError = false ∧ s.service.readyInTime = true := by
    intro s hsm
    obtain ⟨x, hx, rfl⟩ := List.mem_map.mp hsm
    exact h x hx
  have hloop := startLoop_good shutdownTimeout now (impls.map (freshState "svc"))
    ⟨false⟩ hs
  have hstart : (mkConductor impls).Start now =
      ⟨{ mkConductor impls with
          started := true
          services := (impls.map (freshState "svc")).map readyStep
          shutdown := ⟨false⟩ },
        readyTrace 0 impls.length, none⟩ := by
    show (let p := startLoop shutdownTimeout now [] (impls.map (freshState "svc"))
            ⟨false⟩
          (⟨{ mkConductor impls with
                started := true, services := p.1, shutdown := p.2.1 },
            p.2.2.1, p.2.2.2⟩ : StartResult)) = _
    rw [hloop]
    simp [List.length_map]
  have hrun : (fun x : ServiceImpl => (readyStep (freshState "svc" x)).runCount) =
      fun _ => 1 := rfl
  have hbuf : ∀ s ∈ (impls.map (freshState "svc")).map readyStep,
      s.shutdown.buf = [] := by
    intro s hsm
    obtain ⟨y, hy, rfl⟩ := List.mem_map.mp hsm
    obtain ⟨x, hx, rfl⟩ := List.mem_map.mp hy
    rfl
  refine ⟨by rw [hstart], ?_, by rw [hstart], by rw [hstart], ?_⟩
  · rw [hstart]
    simp only [List.map_map]
    rw [show ((fun s : serviceState => s.runCount) ∘ readyStep ∘ freshState "svc") =
      fun _ => (1 : Nat) from rfl]
    exact List.map_const' _ 1
  · intro hstop
    have hall : ((impls.map (freshState "svc")).map readyStep).all respondsB = true := by
      rw [List.all_eq_true]
      intro s hsm
      obtain ⟨y, hy, rfl⟩ := List.mem_map.mp hsm
      obtain ⟨x, hx, rfl⟩ := List.mem_map.mp hy
      rw [respondsB_readyStep_fresh]
      exact hstop x hx
    have hstopModel := StopModel_ok ((impls.map (freshState "svc")).map readyStep)
      ⟨false⟩ shutdownTimeout now2 hbuf hall rfl
    rw [hstart]
    unfold conductor.Stop
    dsimp only [mkConductor, New, List.foldl]
    rw [hstopModel]
    exact ⟨rfl, rfl⟩


/-- Witness for C4: two well-behaved services; all hypotheses hold by
evaluation. -/
theorem start_all_ready_witness : StartAllReadySpec [implGood, implGood] 0 0 :=
  start_all_ready [implGood, implGood] 0 0 (by decide)

lemma map_runCount_readyStep_fresh (xs : List ServiceImpl) :
    (((xs.map (freshState "svc")).map readyStep).map fun s => s.runCount) =
      List.replicate xs.length 1 := by
  induction xs with
  | nil => rfl
  | cons x xs ih =>
    simp only [List.map_cons, List.replicate_succ, ih]
    rfl

lemma map_runCount_fresh (xs : List ServiceImpl) :
    ((xs.map (freshState "svc")).map fun s => s.runCount) =
      List.replicate xs.length 0 := by
  induction xs with
  | nil => rfl
  | cons x xs ih =>
    simp only [List.map_cons, List.replicate_succ, ih]
    rfl

lemma map_writesSucc_readyStep_fresh (xs : List ServiceImpl) :
    (((xs.map (freshState "svc")).map readyStep).map fun s => s.shutdown.writes + 1) =
      List.replicate xs.length 1 := by
  induction xs with
  | nil => rfl
  | cons x xs ih =>
    simp only [List.map_cons, List.replicate_succ, ih]
    rfl

lemma map_writesSucc_fresh (xs : List ServiceImpl) :
    ((xs.map (freshState "svc")).map fun s => s.shutdown.writes + 1) =
      List.replicate xs.length 1 := by
  induction xs with
  | nil => rfl
  | cons x xs ih =>
    simp only [List.map_cons, List.replicate_succ, ih]
    rfl

/-- Claim C5: if the `Run` of the `k`-th registered service (1-indexed;
index `pre.length` 0-indexed) returns a non-nil error during `Start`, the
conductor triggers the shutdown path, the startup loop is aborted so the
later services never have `Run` invoked, and each earlier service receives
exactly one shutdown request. -/
theorem start_error_aborts (pre : List ServiceImpl) (bad : ServiceImpl)
    (rest : List ServiceImpl) (now : Nat)
    (hpre : ∀ s ∈ pre, s.runError = false ∧ s.readyInTime = true)
    (hbad : bad.runError = true) :
    ErrAbortSpec pre bad rest now := by
  have hP : ∀ s ∈ pre.map (freshState "svc"),
      s.service.runError = false ∧ s.service.readyInTime = true := by
    intro s hsm
    obtain ⟨x, hx, rfl⟩ := List.mem_map.mp hsm
    exact hpre x hx
  have h1 := startLoop_goodPre shutdownTimeout now (pre.map (freshState "svc")) hP
    [] (freshState "svc" bad :: rest.map (freshState "svc")) ⟨false⟩
  have h2 := startLoop_err_head shutdownTimeout now
    ((pre.map (freshState "svc")).map readyStep) (rest.map (freshState "svc"))
    ⟨false⟩ (freshState "svc" bad) hbad
  simp only [List.length_map, List.length_nil, List.nil_append] at h1 h2
  have hbufL : ∀ s ∈ ((pre.map (freshState "svc")).map readyStep ++
      runStep (freshState "svc" bad) :: rest.map (freshState "svc")),
      s.shutdown.buf = [] := by
    intro s hsm
    rcases List.mem_append.mp hsm with hm | hm
    · obtain ⟨y, hy, rfl⟩ := List.mem_map.mp hm
      obtain ⟨x, hx, rfl⟩ := List.mem_map.mp hy
      rfl
    · rcases List.mem_cons.mp hm with rfl | hm
      · rfl
      · obtain ⟨x, hx, rfl⟩ := List.mem_map.mp hm
        rfl
  have hstart : (mkConductor (pre ++ bad :: rest)).Start now =
      ⟨{ mkConductor (pre ++ bad :: rest) with
          started := true
          services := (StopModel ((pre.map (freshState "svc")).map readyStep ++
            runStep (freshState "svc" bad) :: rest.map (freshState "svc")) ⟨false⟩
            shutdownTimeout now).services
          shutdown := (StopModel ((pre.map (freshState "svc")).map readyStep ++
            runStep (freshState "svc" bad) :: rest.map (freshState "svc")) ⟨false⟩
            shutdownTimeout now).completion },
        readyTrace 0 pre.length ++ Event.runCall pre.length ::
          Event.runErr pre.length ::
          (StopModel ((pre.map (freshState "svc")).map readyStep ++
            runStep (freshState "svc" bad) :: rest.map (freshState "svc")) ⟨false⟩
            shutdownTimeout now).events,
        some (StopModel ((pre.map (freshState "svc")).map readyStep ++
          runStep (freshState "svc" bad) :: rest.map (freshState "svc")) ⟨false⟩
          shutdownTimeout now).outcome⟩ := by
    show (let p := startLoop shutdownTimeout now []
            ((pre ++ bad :: rest).map (freshState "svc")) ⟨false⟩
          (⟨{ mkConductor (pre ++ bad :: rest) with
                started := true, services := p.1, shutdown := p.2.1 },
            p.2.2.1, p.2.2.2⟩ : StartResult)) = _
    rw [show (pre ++ bad :: rest).map (freshState "svc") =
        pre.map (freshState "svc") ++
          freshState "svc" bad :: rest.map (freshState "svc") by simp]
    rw [h1, h2]
  unfold ErrAbortSpec
  rw [hstart]
  refine ⟨rfl, by simp, ?_, ?_⟩
  · rw [StopModel_services _ _ _ _ hbufL, map_runCount_deliverStep]
    simp only [List.map_append, List.map_cons]
    rw [map_runCount_readyStep_fresh, map_runCount_fresh]
    rfl
  · rw [StopModel_services _ _ _ _ hbufL, map_shutdown_writes_deliverStep]
    simp only [List.map_append, List.map_cons]
    rw [map_writesSucc_readyStep_fresh, map_writesSucc_fresh]
    rfl

/-- Witness for C5: one good service, then a failing service, then one
further registered service; hypotheses hold by evaluation. -/
theorem start_error_aborts_witness : ErrAbortSpec [implGood] implErr [implGood] 0 :=
  start_error_aborts [implGood] implErr [implGood] 0 (by decide) (by decide)



/-- Claim C6: during `Start`, after a service's `Run` returns nil, the
conductor races the `startTimeout` timer against that service's
readySignal; if the timer fires first the behaviour is identical to the
`Run`-returns-error case — the shutdown path is triggered and the rest of
the loop is aborted — and if readySignal fires first, startup proceeds to
the next registered service. -/
theorem start_timeout_race (pre : List ServiceImpl) (bad : ServiceImpl)
    (rest : List ServiceImpl) (now : Nat)
    (hpre : ∀ s ∈ pre, s.runError = false ∧ s.readyInTime = true)
    (hbe : bad.runError = false) :
    (bad.readyInTime = false → TimeoutAbortSpec pre bad rest now) ∧
    (bad.readyInTime = true → ProceedSpec pre bad rest now) := by
  constructor
  · intro hrt
    have hP : ∀ s ∈ pre.map (freshState "svc"),
        s.service.runError = false ∧ s.service.readyInTime = true := by
      intro s hsm
      obtain ⟨x, hx, rfl⟩ := List.mem_map.mp hsm
      exact hpre x hx
    have h1 := startLoop_goodPre shutdownTimeout now (pre.map (freshState "svc")) hP
      [] (freshState "svc" bad :: rest.map (freshState "svc")) ⟨false⟩
    have h2 := startLoop_timeout_head shutdownTimeout now
      ((pre.map (freshState "svc")).map readyStep) (rest.map (freshState "svc"))
      ⟨false⟩ (freshState "svc" bad) hbe hrt
    simp only [List.length_map, List.length_nil, List.nil_append] at h1 h2
    have hbufL : ∀ s ∈ ((pre.map (freshState "svc")).map readyStep ++
        runStep (freshState "svc" bad) :: rest.map (freshState "svc")),
        s.shutdown.buf = [] := by
      intro s hsm
      rcases List.mem_append.mp hsm with hm | hm
      · obtain ⟨y, hy, rfl⟩ := List.mem_map.mp hm
        obtain ⟨x, hx, rfl⟩ := List.mem_map.mp hy
        rfl
      · rcases List.mem_cons.mp hm with rfl | hm
        · rfl
        · obtain ⟨x, hx, rfl⟩ := List.mem_map.mp hm
          rfl
    have hstart : (mkConductor (pre ++ bad :: rest)).Start now =
        ⟨{ mkConductor (pre ++ bad :: rest) with
            started := true
            services := (StopModel ((pre.map (freshState "svc")).map readyStep ++
              runStep (freshState "svc" bad) :: rest.map (freshState "svc")) ⟨false⟩
              shutdownTimeout now).services
            shutdown := (StopModel ((pre.map (freshState "svc")).map readyStep ++
              runStep (freshState "svc" bad) :: rest.map (freshState "svc")) ⟨false⟩
              shutdownTimeout now).completion },
          readyTrace 0 pre.length ++ Event.runCall pre.length ::
            Event.timeout pre.length ::
            (StopModel ((pre.map (freshState "svc")).map readyStep ++
              runStep (freshState "svc" bad) :: rest.map (freshState "svc")) ⟨false⟩
              shutdownTimeout now).events,
          some (StopModel ((pre.map (freshState "svc")).map readyStep ++
            runStep (freshState "svc" bad) :: rest.map (freshState "svc")) ⟨false⟩
            shutdownTimeout now).outcome⟩ := by
      show (let p := startLoop shutdownTimeout now []
              ((pre ++ bad :: rest).map (freshState "svc")) ⟨false⟩
            (⟨{ mkConductor (pre ++ bad :: rest) with
                  started := true, services := p.1, shutdown := p.2.1 },
              p.2.2.1, p.2.2.2⟩ : StartResult)) = _
      rw [show (pre ++ bad :: rest).map (freshState "svc") =
          pre.map (freshState "svc") ++
            freshState "svc" bad :: rest.map (freshState "svc") by simp]
      rw [h1, h2]
    unfold TimeoutAbortSpec
    rw [hstart]
    refine ⟨rfl, by simp, ?_, ?_⟩
    · rw [StopModel_services _ _ _ _ hbufL, map_runCount_deliverStep]
      simp only [List.map_append, List.map_cons]
      rw [map_runCount_readyStep_fresh, map_runCount_fresh]
      rfl
    · rw [StopModel_services _ _ _ _ hbufL, map_shutdown_writes_deliverStep]
      simp only [List.map_append, List.map_cons]
      rw [map_writesSucc_readyStep_fresh, map_writesSucc_fresh]
      rfl
  · intro hrt
    have hP' : ∀ s ∈ (pre ++ [bad]).map (freshState "svc"),
        s.service.runError = false ∧ s.service.readyInTime = true := by
      intro s hsm
      obtain ⟨x, hx, rfl⟩ := List.mem_map.mp hsm
      rcases List.mem_append.mp hx with hx | hx
      · exact hpre x hx
      · rw [List.mem_singleton.mp hx]
        exact ⟨hbe, hrt⟩
    have h1 := startLoop_goodPre shutdownTimeout now
      ((pre ++ [bad]).map (freshState "svc")) hP' [] (rest.map (freshState "svc"))
      ⟨false⟩
    simp only [List.length_map, List.length_nil, List.nil_append,
      List.length_append, List.length_cons] at h1
    have hstart : ((mkConductor (pre ++ bad :: rest)).Start now).events =
        readyTrace 0 (pre.length + 1) ++
          (startLoop shutdownTimeout now
            (((pre ++ [bad]).map (freshState "svc")).map readyStep)
            (rest.map (freshState "svc")) ⟨false⟩).2.2.1 := by
      show (let p := startLoop shutdownTimeout now []
              ((pre ++ bad :: rest).map (freshState "svc")) ⟨false⟩
            (⟨{ mkConductor (pre ++ bad :: rest) with
                  started := true, services := p.1, shutdown := p.2.1 },
              p.2.2.1, p.2.2.2⟩ : StartResult)).events = _
      rw [show (pre ++ bad :: rest).map (freshState "svc") =
          (pre ++ [bad]).map (freshState "svc") ++ rest.map (freshState "svc")
        by simp]
      rw [h1]
    unfold ProceedSpec
    refine ⟨?_, ?_, ?_⟩
    · rw [hstart]
      exact List.mem_append.mpr (Or.inl
        (runCall_mem_readyTrace (pre.length + 1) 0 pre.length (by omega) (by omega)))
    · rw [hstart]
      exact List.mem_append.mpr (Or.inl
        (ready_mem_readyTrace (pre.length + 1) 0 pre.length (by omega) (by omega)))
    · intro hlen
      cases rest with
      | nil => simp at hlen
      | cons r0 rest2 =>
        rw [hstart]
        refine List.mem_append.mpr (Or.inr ?_)
        have hhead := startLoop_head_runCall shutdownTimeout now
          (((pre ++ [bad]).map (freshState "svc")).map readyStep)
          (rest2.map (freshState "svc")) ⟨false⟩ (freshState "svc" r0)
        simpa [List.length_map, List.length_append] using hhead

/-- Witness for C6 (timer-fires-first arm): one good service, then a
service that never signals ready, then one further registered service. -/
theorem start_timeout_race_witness :
    TimeoutAbortSpec [implGood] implSlow [implGood] 0 :=
  (start_timeout_race [implGood] implSlow [implGood] 0 (by decide) (by decide)).1
    (by decide)


end Conductor
